import Mathlib

/-!
Verification development for the FACIAP legislative clipping pipeline
(`scr/database.py`, `scr/scoring.py`, `scr/pipeline.py`,
`scr/automation/scheduler.py`).

The Python source is shallowly embedded: dictionaries become structures
whose optional keys are `Option` fields, SQLite tables become lists of
rows threaded through explicit state, and code that can raise becomes
`Except`-valued functions.  Every definition follows the corresponding
Python function line by line; theorems about the claims of the
specification come after all definitions.
-/

namespace Clipping

/-! ## Scoring engine (`scr/scoring.py`) -/

/-- Character-level model of Python `str.lower()` on the character range
the system processes: ASCII letters plus the uppercase accented letters
whose lowercase forms appear in `FACIAPScoring.normalization_map`. -/
def lowerPy (c : Char) : Char :=
  if 'A' ≤ c ∧ c ≤ 'Z' then Char.ofNat (c.toNat + 32)
  else if c = 'À' then 'à' else if c = 'Á' then 'á'
  else if c = 'Â' then 'â' else if c = 'Ã' then 'ã'
  else if c = 'È' then 'è' else if c = 'É' then 'é'
  else if c = 'Ê' then 'ê'
  else if c = 'Ì' then 'ì' else if c = 'Í' then 'í'
  else if c = 'Î' then 'î'
  else if c = 'Ò' then 'ò' else if c = 'Ó' then 'ó'
  else if c = 'Ô' then 'ô' else if c = 'Õ' then 'õ'
  else if c = 'Ù' then 'ù' else if c = 'Ú' then 'ú'
  else if c = 'Û' then 'û'
  else if c = 'Ç' then 'ç'
  else c

/-- Model of Python `str.lower()` applied to a whole string (as a
character list). -/
def lowerList (l : List Char) : List Char := l.map lowerPy

/-- The accent-folding table `FACIAPScoring.normalization_map`, in the
insertion order of the Python dict literal (scoring.py lines 18-25). -/
def normalizationMap : List (Char × Char) :=
  [('à', 'a'), ('á', 'a'), ('ã', 'a'), ('â', 'a'),
   ('è', 'e'), ('é', 'e'), ('ê', 'e'),
   ('ì', 'i'), ('í', 'i'), ('î', 'i'),
   ('ò', 'o'), ('ó', 'o'), ('õ', 'o'), ('ô', 'o'),
   ('ù', 'u'), ('ú', 'u'), ('û', 'u'),
   ('ç', 'c')]

/-- Model of `FACIAPScoring._normalize_text`: the Python method runs
`text.replace(acento, normal)` once per table entry, in table order.
Each replacement of a single character by a single character is a `map`
over the characters. -/
def normalizeList (l : List Char) : List Char :=
  normalizationMap.foldl (fun t p => t.map (fun c => if c = p.1 then p.2 else c)) l

/-- The effect of `normalizeList` on a single character: the character
is pushed through the replacement table in order. -/
def normChar (c : Char) : Char :=
  normalizationMap.foldl (fun a p => if a = p.1 then p.2 else a) c

theorem foldl_map_replace (ps : List (Char × Char)) (l : List Char) :
    ps.foldl (fun t p => t.map (fun c => if c = p.1 then p.2 else c)) l
      = l.map (fun c => ps.foldl (fun a p => if a = p.1 then p.2 else a) c) := by
  induction ps generalizing l with
  | nil => simp
  | cons p ps ih =>
    simp only [List.foldl_cons]
    rw [ih, List.map_map]
    rfl

theorem normalizeList_eq_map (l : List Char) :
    normalizeList l = l.map normChar :=
  foldl_map_replace normalizationMap l

/-- Model of Python's regex word characters `\w` over the ASCII range
relevant after normalization: alphanumerics and underscore. -/
def isWordChar (c : Char) : Bool := c.isAlphanum || c = '_'

/-- Word-character test lifted to an optional character: a position
outside the string counts as a non-word character for `\b`. -/
def isWordO : Option Char → Bool
  | none => false
  | some c => isWordChar c

/-- `leadsWith pat l` holds when `pat` is an initial segment of `l`
(the literal-pattern match of `re` at the current position). -/
def leadsWith : List Char → List Char → Bool
  | [], _ => true
  | _ :: _, [] => false
  | p :: ps, c :: cs => p = c && leadsWith ps cs

/-- Fuel-driven scanner for `len(re.findall(re.escape(term), text))` with
a nonempty literal term: `re.findall` counts non-overlapping matches
scanning left to right, resuming right after each match. -/
def countSubAux (term : List Char) : Nat → List Char → Nat
  | 0, _ => 0
  | _ + 1, [] => 0
  | fuel + 1, c :: rest =>
    if leadsWith term (c :: rest) then
      1 + countSubAux term fuel ((c :: rest).drop term.length)
    else
      countSubAux term fuel rest

/-- Model of `len(re.findall(re.escape(termo_normalizado), texto))`
(scoring.py line 121).  An empty pattern matches the empty string at
every position, giving `len(text) + 1` matches. -/
def countSub (term text : List Char) : Nat :=
  match term with
  | [] => text.length + 1
  | _ :: _ => countSubAux term text.length text

/-- Whether the word-bounded pattern `\b term \b` matches at the current
position, given the character just before the position (`prev`) and the
remaining text `l`.  `\b` holds at a position exactly when the character
before and the character at the position disagree on being word
characters. -/
def wordMatchHere (term : List Char) (prev : Option Char) (l : List Char) : Bool :=
  match term with
  | [] => false
  | t0 :: _ =>
    leadsWith term l
      && (isWordO prev != isWordChar t0)
      && (match term.getLast? with
          | some tl => isWordChar tl != isWordO (l.drop term.length).head?
          | none => false)

/-- Fuel-driven scanner for the word-bounded count with a nonempty term;
after a match the scan resumes right after the matched occurrence, so
the new previous character is the term's last character. -/
def countWordAux (term : List Char) : Nat → Option Char → List Char → Nat
  | 0, _, _ => 0
  | _ + 1, _, [] => 0
  | fuel + 1, prev, c :: rest =>
    if wordMatchHere term prev (c :: rest) then
      1 + countWordAux term fuel term.getLast? ((c :: rest).drop term.length)
    else
      countWordAux term fuel (some c) rest

/-- Number of word-boundary positions of a text, scanning with the
previous character: this is the match count of an empty `\b…\b` pattern,
which `re.findall` reports once per boundary position. -/
def countBoundaries : Option Char → List Char → Nat
  | prev, [] => if isWordO prev then 1 else 0
  | prev, c :: rest =>
    (if isWordO prev != isWordChar c then 1 else 0) + countBoundaries (some c) rest

/-- Model of `len(re.findall(r'\b' + re.escape(termo_normalizado) + r'\b',
texto))` (scoring.py lines 124-125). -/
def countWord (term text : List Char) : Nat :=
  match term with
  | [] => countBoundaries none text
  | _ :: _ => countWordAux term text.length none text

/-- A row of the FACIAP dictionary as `_analyze_term` reads it: the
`.get(..., default)` accesses of the Python code are already resolved
into the fields (`eixo_temat` defaulting to `'Geral'`, the weights to
`1`, `tipo` to `'palavra'`).  Weights are rationals standing for the
Python floats. -/
structure DictRow where
  palavra_chave : String
  eixo_temat : String
  peso_interesse : ℚ
  peso_risco : ℚ
  tipo : String

/-- Record built by `_analyze_term` for a term with at least one
occurrence. -/
structure TermInfo where
  termo : List Char
  eixo : String
  count : Nat
  peso_interesse : ℚ
  peso_risco : ℚ
  score_contribuicao : ℚ
  deriving Repr, DecidableEq

/-- Occurrence count computed by `_analyze_term` (scoring.py lines
116-125): the term is lower-cased and accent-folded, then counted by
exact substring match when the type is `'expressão'` or the normalized
term contains a space, and by word-bounded match otherwise. -/
def termCount (row : DictRow) (texto : List Char) : Nat :=
  let termoNorm := normalizeList (lowerList row.palavra_chave.toList)
  if row.tipo = "expressão" || termoNorm.contains ' ' then
    countSub termoNorm texto
  else
    countWord termoNorm texto

/-- Model of `FACIAPScoring._analyze_term` (scoring.py lines 106-140):
returns the match record when the count is positive and `none`
otherwise. -/
def analyzeTerm (row : DictRow) (texto : List Char) : Option TermInfo :=
  let termo := lowerList row.palavra_chave.toList
  let count := termCount row texto
  if count > 0 then
    some { termo := termo
           eixo := row.eixo_temat
           count := count
           peso_interesse := row.peso_interesse
           peso_risco := row.peso_risco
           score_contribuicao := count * row.peso_interesse }
  else
    none

/-- Document preparation of `FACIAPScoring.score_content` (scoring.py
lines 56-57): title and body joined by one space, lower-cased, then
accent-folded. -/
def scoreDoc (titulo conteudo : String) : List Char :=
  normalizeList (lowerList (titulo.toList ++ ' ' :: conteudo.toList))

/-- Model of `FACIAPScoring._classify_relevance` (scoring.py lines
142-151).  The Portuguese labels are the spec's relevance classes:
`Alta` = High, `Média` = Medium, `Baixa-Média` = Low-Medium,
`Baixa` = Low. -/
def classifyRelevance (score : ℚ) : String :=
  if score ≥ 15 then "Alta"
  else if score ≥ 8 then "Média"
  else if score ≥ 3 then "Baixa-Média"
  else "Baixa"

/-! ## Deduplicating store (`scr/database.py`) -/

/-- The raw item dictionary passed to `insert_noticia`.  Keys that may
be absent from the Python dict are `Option` fields (`none` = key
missing); `insert_noticia` itself applies the `.get` defaults.  Only the
columns that constrain behavior are modelled: `titulo` (NOT NULL,
default `''`), `link` (UNIQUE NOT NULL, default `''`) and `data_coleta`
(NOT NULL, no default — `dict.get('data_coleta')` yields `None` when the
key is absent).  The remaining columns are nullable or defaulted and
impose no constraint. -/
structure Item where
  titulo : Option String
  link : Option String
  data_coleta : Option String
  deriving DecidableEq

/-- A stored row of the `noticias` table (the modelled columns plus the
autoincrement id). -/
structure Row where
  id : Nat
  titulo : String
  link : String
  data_coleta : String
  deriving DecidableEq

/-- The `noticias` table with its autoincrement counter. -/
structure Store where
  rows : List Row
  nextId : Nat
  deriving DecidableEq

/-- Link values already present in the table (the UNIQUE index on
`noticias.link`). -/
def Store.links (st : Store) : List String := st.rows.map Row.link

/-- Whether the INSERT of `insert_noticia` hits an integrity constraint:
either the NOT NULL constraint on `data_coleta` (the inserted value is
`noticia_data.get('data_coleta')`, which is NULL when the key is
absent), or the UNIQUE constraint on `link` (the inserted value is
`noticia_data.get('link', '')`). -/
def insertViolates (item : Item) (st : Store) : Bool :=
  item.data_coleta.isNone || st.links.contains (item.link.getD "")

/-- The duplicate lookup `SELECT id FROM noticias WHERE link = ?` with
parameter `noticia_data.get('link')`: when the key is absent the
parameter is NULL and SQL equality with NULL matches no row. -/
def findByLink (st : Store) : Option String → Option Row
  | none => none
  | some l => st.rows.find? (fun r => r.link = l)

/-- Model of `DatabaseManager.insert_noticia` (database.py lines
90-130): attempt the INSERT; on an integrity error, look up the existing
row by `link` and return `(id, False)` when found, otherwise re-raise
(`Except.error`). -/
def insertNoticia (item : Item) (st : Store) : Except Unit ((Nat × Bool) × Store) :=
  if insertViolates item st then
    match findByLink st item.link with
    | some r => .ok ((r.id, false), st)
    | none => .error ()
  else
    .ok ((st.nextId, true),
         { rows := st.rows ++
             [{ id := st.nextId
                titulo := item.titulo.getD ""
                link := item.link.getD ""
                data_coleta := item.data_coleta.getD "" }]
           nextId := st.nextId + 1 })

/-- The scoring payload stored by `insert_scoring`, mirroring the
columns filled from `scoring_data` (database.py lines 217-230);
`termos_detalhes` stands for the JSON-encoded detail list. -/
structure ScoringPayload where
  score_interesse : ℚ
  score_risco : ℚ
  relevancia : String
  eixo_principal : String
  termos_encontrados : Nat
  termos_detalhes : Option String
  deriving DecidableEq

/-- A row of the `scoring` table: the referenced `noticia_id` plus the
payload columns. -/
structure ScoringRow where
  noticia_id : Nat
  payload : ScoringPayload
  deriving DecidableEq

/-- Model of `DatabaseManager.insert_scoring` (database.py lines
209-231): `DELETE FROM scoring WHERE noticia_id = ?` removes every row
of the item, then the new row is inserted. -/
def insertScoring (noticiaId : Nat) (payload : ScoringPayload)
    (tbl : List ScoringRow) : List ScoringRow :=
  tbl.filter (fun r => r.noticia_id ≠ noticiaId) ++ [⟨noticiaId, payload⟩]

/-- A row of the `coletas` log (database.py lines 238-252), without the
timestamp columns, which constrain nothing. -/
structure ColetaEntry where
  fonte : String
  noticias_coletadas : Nat
  noticias_novas : Nat
  noticias_duplicadas : Int
  status : String
  observacoes : Option String
  deriving DecidableEq

/-- Model of `DatabaseManager.registrar_coleta` (database.py lines
233-254).  The method runs a single INSERT with no exception handler, so
a failure of the underlying database write propagates to the caller;
`writeOk` says whether that write succeeds.  `noticias_duplicadas` is
computed as `noticias_coletadas - noticias_novas` (Python int
subtraction, hence `Int`). -/
def registrarColeta (writeOk : Bool) (fonte : String)
    (coletadas novas : Nat) (status : String) (observacoes : Option String)
    (log : List ColetaEntry) : Except Unit (List ColetaEntry) :=
  if writeOk then
    .ok (log ++ [{ fonte := fonte
                   noticias_coletadas := coletadas
                   noticias_novas := novas
                   noticias_duplicadas := (coletadas : Int) - (novas : Int)
                   status := status
                   observacoes := observacoes }])
  else
    .error ()

/-! ## Pipeline collection stage (`scr/pipeline.py`) -/

instance : DecidableEq (Except String (List Item)) := fun a b =>
  match a, b with
  | .ok x, .ok y => decidable_of_iff (x = y) (by simp)
  | .error x, .error y => decidable_of_iff (x = y) (by simp)
  | .ok _, .error _ => isFalse (by simp)
  | .error _, .ok _ => isFalse (by simp)

/-- One registered source as `_executar_coleta` sees it: its name, the
outcome of `scraper.scrape(max_pages)` (an exception or the collected
items), and whether the underlying database writes of the two possible
`registrar_coleta` calls succeed (`writeOkS` for the success-path call
inside the `try`, `writeOkE` for the call in the `except` handler). -/
structure SourceSpec where
  name : String
  outcome : Except String (List Item)
  writeOkS : Bool
  writeOkE : Bool
  deriving DecidableEq

/-- The insert loop of `_executar_coleta` (pipeline.py lines 108-113):
items are inserted one by one; an error raised by `insert_noticia`
escapes the loop, keeping the rows already committed, and the count of
new items is returned on success. -/
def insertAll : Store → List Item → Store × Except Unit Nat
  | st, [] => (st, .ok 0)
  | st, item :: rest =>
    match insertNoticia item st with
    | .error e => (st, .error e)
    | .ok ((_, isNew), st') =>
      match insertAll st' rest with
      | (st'', .ok novas) => (st'', .ok ((if isNew then 1 else 0) + novas))
      | (st'', .error e) => (st'', .error e)

/-- Joint state of the `noticias` table and the `coletas` log as the
collection stage threads it. -/
structure PipeState where
  store : Store
  coletas : List ColetaEntry
  deriving DecidableEq

/-- The `except` handler of `_executar_coleta` (pipeline.py lines
128-138): record an error `CollectionRun` with zero counts and the
exception text.  If that `registrar_coleta` write itself fails, the new
exception propagates out of the loop, aborting the stage (`false`). -/
def recordSourceError (ps : PipeState) (src : SourceSpec) (msg : String) :
    PipeState × Bool :=
  match registrarColeta src.writeOkE src.name 0 0 "error" (some msg) ps.coletas with
  | .ok log => ({ ps with coletas := log }, true)
  | .error _ => (ps, false)

/-- One iteration of the source loop of `_executar_coleta` (pipeline.py
lines 100-140): scrape, insert every item, record a success run; any
exception inside the `try` (scraper failure, insert error, or a failed
success-path log write) is caught and an error run is recorded instead.
The second component is `false` when the iteration re-raises (only
possible from the `except` handler's own log write). -/
def stepSource (ps : PipeState) (src : SourceSpec) : PipeState × Bool :=
  match src.outcome with
  | .error msg => recordSourceError ps src msg
  | .ok items =>
    match insertAll ps.store items with
    | (st', .error _) => recordSourceError { ps with store := st' } src "IntegrityError"
    | (st', .ok novas) =>
      match registrarColeta src.writeOkS src.name items.length novas "success" none
          ps.coletas with
      | .ok log => ({ store := st', coletas := log }, true)
      | .error _ => recordSourceError { ps with store := st' } src "DatabaseError"

/-- The source loop of `ClippingPipeline._executar_coleta` (pipeline.py
lines 96-141): sources are processed in order; an exception escaping a
source's `except` handler aborts the loop (the remaining sources are not
collected) and the second component is `false`. -/
def runColeta : PipeState → List SourceSpec → PipeState × Bool
  | ps, [] => (ps, true)
  | ps, src :: rest =>
    match stepSource ps src with
    | (ps', true) => runColeta ps' rest
    | (ps', false) => (ps', false)

/-! ## Execution guard (`scr/automation/scheduler.py`) -/

/-- The lock file's parsed contents: `none` models contents that
`int(...)` rejects (a `ValueError`), `some pid` a well-formed process
identifier. -/
abbrev LockContent := Option Nat

/-- The world the guard acts on: the lock file (absent, unreadable, or
holding a PID), the set of PIDs for which the `os.kill(pid, 0)` probe
succeeds, the current process id, and the store (a list of recorded
writes, opaque to the guard). -/
structure World where
  lockFile : Option LockContent
  live : List Nat
  curPid : Nat
  store : List Nat
  deriving DecidableEq

/-- Model of `AutomationScheduler.is_already_running` (scheduler.py
lines 53-69): no file means not running; unreadable contents or a PID
whose probe fails remove the stale file and mean not running; a live PID
means running. -/
def isAlreadyRunning (w : World) : Bool × World :=
  match w.lockFile with
  | none => (false, w)
  | some none => (false, { w with lockFile := none })
  | some (some pid) =>
    if w.live.contains pid then (true, w)
    else (false, { w with lockFile := none })

/-- Model of `AutomationScheduler.create_lock` (scheduler.py lines
71-76): write the current PID to the lock file. -/
def createLock (w : World) : World :=
  { w with lockFile := some (some w.curPid) }

/-- Model of `AutomationScheduler.remove_lock` (scheduler.py lines
78-82). -/
def removeLock (w : World) : World :=
  { w with lockFile := none }

/-- Model of `AutomationScheduler.execute_pipeline_job` (scheduler.py
lines 84-113): skip when `is_already_running`, otherwise create the
lock, run the pipeline (`pipe`), and always remove the lock afterwards.
The boolean reports whether the pipeline was invoked. -/
def executeJob (pipe : World → World) (w : World) : Bool × World :=
  match isAlreadyRunning w with
  | (true, w') => (false, w')
  | (false, w') => (true, removeLock (pipe (createLock w')))

/-- Whether the lock file holds the PID of a process whose liveness
probe succeeds. -/
def liveLockHeld (w : World) : Bool :=
  match w.lockFile with
  | some (some pid) => w.live.contains pid
  | _ => false

/-! ## Theorems about the claims -/

theorem links_find_none (st : Store) (l : String)
    (hfresh : ∀ r ∈ st.rows, r.link ≠ l) :
    st.rows.find? (fun r => r.link = l) = none := by
  rw [List.find?_eq_none]
  intro r hr
  simpa using hfresh r hr

theorem links_not_mem (st : Store) (l : String)
    (hfresh : ∀ r ∈ st.rows, r.link ≠ l) :
    l ∉ st.links := by
  simp only [Store.links, List.mem_map, not_exists, not_and]
  intro r hr
  exact fun h => hfresh r hr h

/-- C1: inserting an item with a link not yet stored returns the fresh id
with `is_new = true` and appends one row; inserting any item with the
same link again returns the same id with `is_new = false` and leaves the
store unchanged — no new record is created. -/
theorem insert_noticia_idempotent (i1 i2 : Item) (st : Store) (l d : String)
    (h1 : i1.link = some l) (hd : i1.data_coleta = some d)
    (h2 : i2.link = some l)
    (hfresh : ∀ r ∈ st.rows, r.link ≠ l) :
    insertNoticia i1 st
      = .ok ((st.nextId, true),
             ⟨st.rows ++ [⟨st.nextId, i1.titulo.getD "", l, d⟩], st.nextId + 1⟩)
    ∧ insertNoticia i2
        ⟨st.rows ++ [⟨st.nextId, i1.titulo.getD "", l, d⟩], st.nextId + 1⟩
      = .ok ((st.nextId, false),
             ⟨st.rows ++ [⟨st.nextId, i1.titulo.getD "", l, d⟩], st.nextId + 1⟩) := by
  have hm := links_not_mem st l hfresh
  have hn := links_find_none st l hfresh
  constructor
  · simp [insertNoticia, insertViolates, h1, hd, hm]
  · simp [insertNoticia, insertViolates, findByLink, h2, Store.links,
      List.find?_append, hn]

/-- Witness for the C1 theorem at a concrete item and the empty store. -/
theorem insert_noticia_idempotent_witness :
    insertNoticia ⟨some "t1", some "http://a/1", some "2025-01-01"⟩ ⟨[], 1⟩
      = .ok ((1, true), ⟨[⟨1, "t1", "http://a/1", "2025-01-01"⟩], 2⟩)
    ∧ insertNoticia ⟨some "t2", some "http://a/1", none⟩
        ⟨[⟨1, "t1", "http://a/1", "2025-01-01"⟩], 2⟩
      = .ok ((1, false), ⟨[⟨1, "t1", "http://a/1", "2025-01-01"⟩], 2⟩) :=
  insert_noticia_idempotent ⟨some "t1", some "http://a/1", some "2025-01-01"⟩
    ⟨some "t2", some "http://a/1", none⟩ ⟨[], 1⟩ "http://a/1" "2025-01-01"
    rfl rfl rfl (by simp)

/-- C2: scoring an item twice leaves exactly one ScoringResult row for
that item, and it holds the second payload only: the prior row is
removed by the DELETE before the INSERT appends the new one. -/
theorem upsert_scoring_last_write_wins (id : Nat) (r1 r2 : ScoringPayload)
    (tbl : List ScoringRow) :
    (insertScoring id r2 (insertScoring id r1 tbl)).filter
        (fun r => r.noticia_id = id)
      = [⟨id, r2⟩] := by
  simp only [insertScoring, List.filter_append, List.filter_filter]
  have h1 : ∀ (t : List ScoringRow),
      t.filter (fun r => decide (r.noticia_id = id)
        && decide (r.noticia_id ≠ id)) = [] := by
    intro t
    rw [List.filter_eq_nil_iff]
    intro r _
    by_cases h : r.noticia_id = id <;> simp [h]
  have h2 : ∀ (t : List ScoringRow),
      t.filter (fun r => decide (r.noticia_id ≠ id)
        |> fun b => b && decide (r.noticia_id = id)) = [] := by
    intro t
    rw [List.filter_eq_nil_iff]
    intro r _
    by_cases h : r.noticia_id = id <;> simp [h]
  simp [List.filter_filter, h1, h2]

/-- C4: the relevance classification is the fixed threshold ladder on
the interest score (`Alta` = High, `Média` = Medium, `Baixa-Média` =
Low-Medium, `Baixa` = Low), and the scores 2, 5, 10, 20 classify as
Low, Low-Medium, Medium, High. -/
theorem classify_relevance_ladder (s : ℚ) :
    (classifyRelevance s = "Alta" ↔ 15 ≤ s)
    ∧ (classifyRelevance s = "Média" ↔ 8 ≤ s ∧ s < 15)
    ∧ (classifyRelevance s = "Baixa-Média" ↔ 3 ≤ s ∧ s < 8)
    ∧ (classifyRelevance s = "Baixa" ↔ s < 3)
    ∧ classifyRelevance 2 = "Baixa"
    ∧ classifyRelevance 5 = "Baixa-Média"
    ∧ classifyRelevance 10 = "Média"
    ∧ classifyRelevance 20 = "Alta" := by
  refine ⟨?_, ?_, ?_, ?_, by norm_num [classifyRelevance],
    by norm_num [classifyRelevance], by norm_num [classifyRelevance],
    by norm_num [classifyRelevance]⟩ <;>
  · unfold classifyRelevance
    split_ifs <;> simp_all <;> intros <;> linarith

/-- C9: when the INSERT hits an integrity constraint and the duplicate
lookup by `link` finds no existing row, `insert_noticia` re-raises the
error; and whenever it returns `(id, is_new = false)` there really is a
stored row with the item's link carrying that id. -/
theorem insert_noticia_propagates_other_violations (item : Item) (st : Store) :
    (insertViolates item st = true → findByLink st item.link = none →
      insertNoticia item st = .error ())
    ∧ (∀ id st', insertNoticia item st = .ok ((id, false), st') →
      ∃ r, findByLink st item.link = some r ∧ r.id = id ∧ st' = st) := by
  constructor
  · intro hv hf
    simp [insertNoticia, hv, hf]
  · intro id st' h
    unfold insertNoticia at h
    split at h
    · cases hf : findByLink st item.link with
      | none => rw [hf] at h; exact absurd h (by simp)
      | some r =>
        rw [hf] at h
        refine ⟨r, rfl, ?_, ?_⟩ <;> cases h <;> rfl
    · cases h

/-- Witness for the C9 theorem: a non-duplicate NOT NULL violation
(missing `data_coleta`, fresh link) is re-raised, and a genuine
duplicate resolves to the stored row's id. -/
theorem insert_noticia_propagates_witness :
    insertNoticia ⟨some "t", some "http://a/9", none⟩ ⟨[], 1⟩ = .error ()
    ∧ ∃ r, findByLink ⟨[⟨4, "t", "http://a/4", "d"⟩], 5⟩ (some "http://a/4")
        = some r ∧ r.id = 4
        ∧ (⟨[⟨4, "t", "http://a/4", "d"⟩], 5⟩ : Store)
          = ⟨[⟨4, "t", "http://a/4", "d"⟩], 5⟩ :=
  ⟨(insert_noticia_propagates_other_violations
      ⟨some "t", some "http://a/9", none⟩ ⟨[], 1⟩).1 (by simp [insertViolates]) rfl,
   (insert_noticia_propagates_other_violations
      ⟨some "t", some "http://a/4", none⟩ ⟨[⟨4, "t", "http://a/4", "d"⟩], 5⟩).2
     4 ⟨[⟨4, "t", "http://a/4", "d"⟩], 5⟩ rfl⟩

/-- C10: an item without a `link` key is stored with link `''`; a second
linkless insert violates uniqueness, but the duplicate lookup queries
`link = NULL`, finds nothing, and re-raises instead of returning the
first row's id. -/
theorem insert_noticia_missing_link (i1 i2 : Item) (st : Store) (d : String)
    (h1 : i1.link = none) (hd : i1.data_coleta = some d)
    (h2 : i2.link = none)
    (hfresh : ∀ r ∈ st.rows, r.link ≠ "") :
    insertNoticia i1 st
      = .ok ((st.nextId, true),
             ⟨st.rows ++ [⟨st.nextId, i1.titulo.getD "", "", d⟩], st.nextId + 1⟩)
    ∧ insertNoticia i2
        ⟨st.rows ++ [⟨st.nextId, i1.titulo.getD "", "", d⟩], st.nextId + 1⟩
      = .error () := by
  have hm := links_not_mem st "" hfresh
  constructor
  · simp [insertNoticia, insertViolates, h1, hd, hm]
  · simp [insertNoticia, insertViolates, findByLink, h2, Store.links]

/-- Witness for the C10 theorem at concrete linkless items and the empty
store. -/
theorem insert_noticia_missing_link_witness :
    insertNoticia ⟨some "t1", none, some "2025-01-01"⟩ ⟨[], 1⟩
      = .ok ((1, true), ⟨[⟨1, "t1", "", "2025-01-01"⟩], 2⟩)
    ∧ insertNoticia ⟨some "t2", none, some "2025-01-02"⟩
        ⟨[⟨1, "t1", "", "2025-01-01"⟩], 2⟩
      = .error () :=
  insert_noticia_missing_link ⟨some "t1", none, some "2025-01-01"⟩
    ⟨some "t2", none, some "2025-01-02"⟩ ⟨[], 1⟩ "2025-01-01"
    rfl rfl rfl (by simp)

/-- C3: a term with a space or phrase match type is counted by exact
substring match, any other term by whole-word match with boundaries on
both sides; concretely, the word term `lei` does not match inside
`leite` but matches the standalone word, and the phrase term
`política pública` matches only the exact adjacent-word sequence. -/
theorem term_match_mode (row : DictRow) (texto : List Char) :
    ((row.tipo = "expressão"
        ∨ (normalizeList (lowerList row.palavra_chave.toList)).contains ' ' = true) →
      termCount row texto
        = countSub (normalizeList (lowerList row.palavra_chave.toList)) texto)
    ∧ (row.tipo ≠ "expressão" →
       (normalizeList (lowerList row.palavra_chave.toList)).contains ' ' = false →
      termCount row texto
        = countWord (normalizeList (lowerList row.palavra_chave.toList)) texto)
    ∧ analyzeTerm ⟨"lei", "Geral", 1, 1, "palavra"⟩ "o leite azedou".toList = none
    ∧ termCount ⟨"lei", "Geral", 1, 1, "palavra"⟩ "a lei seca".toList = 1
    ∧ termCount ⟨"política pública", "Geral", 1, 1, "palavra"⟩
        (scoreDoc "a Política Pública nova" "") = 1
    ∧ analyzeTerm ⟨"política pública", "Geral", 1, 1, "palavra"⟩
        (scoreDoc "a política boa e pública" "") = none := by
  refine ⟨?_, ?_, by decide, by decide, by decide, by decide⟩
  · intro h
    unfold termCount
    rcases h with h | h
    · simp [h]
    · simp at h
      simp [h]
  · intro h1 h2
    unfold termCount
    simp at h2
    simp [h1, h2]

/-- Witness for the C3 theorem: both match-mode branches applied to
concrete dictionary rows. -/
theorem term_match_mode_witness :
    termCount ⟨"política pública", "Geral", 2, 1, "palavra"⟩ "de politica".toList
      = countSub (normalizeList (lowerList "política pública".toList))
        "de politica".toList
    ∧ termCount ⟨"lei", "Geral", 1, 1, "palavra"⟩ "a lei boa".toList
      = countWord (normalizeList (lowerList "lei".toList)) "a lei boa".toList :=
  ⟨(term_match_mode ⟨"política pública", "Geral", 2, 1, "palavra"⟩
      "de politica".toList).1 (Or.inr (by decide)),
   (term_match_mode ⟨"lei", "Geral", 1, 1, "palavra"⟩
      "a lei boa".toList).2.1 (by decide) (by decide)⟩

/-- C7: the occurrence count of a dictionary term depends only on its
lower-cased, accent-folded form and its match type; the document handed
to the matcher is built by the same lower-casing and accent folding of
title and body; and matching is accent-insensitive both ways: `ação`
matches `acao` in the text and `acao` matches `ação`. -/
theorem normalization_accent_insensitive :
    (∀ (r1 r2 : DictRow) (texto : List Char),
      normalizeList (lowerList r1.palavra_chave.toList)
          = normalizeList (lowerList r2.palavra_chave.toList) →
      r1.tipo = r2.tipo →
      termCount r1 texto = termCount r2 texto)
    ∧ (∀ titulo conteudo : String,
      scoreDoc titulo conteudo
        = normalizeList (lowerList (titulo.toList ++ ' ' :: conteudo.toList)))
    ∧ normalizeList (lowerList "ação".toList) = "acao".toList
    ∧ termCount ⟨"ação", "Geral", 1, 1, "palavra"⟩
        (scoreDoc "noticia sobre acao civil" "") = 1
    ∧ termCount ⟨"acao", "Geral", 1, 1, "palavra"⟩
        (scoreDoc "noticia sobre Ação civil" "") = 1 := by
  refine ⟨?_, fun _ _ => rfl, by decide, by decide, by decide⟩
  intro r1 r2 texto h1 h2
  unfold termCount
  rw [h1, h2]

/-- Witness for the C7 theorem: the accented and unaccented spellings of
the same term produce the same count on a concrete text. -/
theorem normalization_accent_insensitive_witness :
    termCount ⟨"ação", "Geral", 1, 1, "palavra"⟩ "uma acao civil".toList
      = termCount ⟨"acao", "Geral", 1, 1, "palavra"⟩ "uma acao civil".toList :=
  normalization_accent_insensitive.1 ⟨"ação", "Geral", 1, 1, "palavra"⟩
    ⟨"acao", "Geral", 1, 1, "palavra"⟩ "uma acao civil".toList (by decide) rfl

/-- Items a source's scrape outcome yields (empty when the scraper
raised). -/
def SourceSpec.scraped (src : SourceSpec) : List Item :=
  match src.outcome with
  | .ok items => items
  | .error _ => []

/-- The status the collection stage records for a source, as determined
by that source's own outcome alone. -/
def statusOf (src : SourceSpec) : String :=
  match src.outcome with
  | .ok _ => "success"
  | .error _ => "error"

/-- An item whose insert can never propagate a store error: it carries a
collection timestamp and a link key. -/
def Item.wf (it : Item) : Prop :=
  it.data_coleta ≠ none ∧ it.link ≠ none

/-- A source for which the collection loop behaves as the specification
describes: both potential log writes succeed and the scraped items are
well-formed. -/
def SourceSpec.wf (src : SourceSpec) : Prop :=
  src.writeOkS = true ∧ src.writeOkE = true ∧ ∀ it ∈ src.scraped, it.wf

instance (it : Item) : Decidable it.wf := by
  unfold Item.wf; infer_instance

instance (src : SourceSpec) : Decidable src.wf := by
  unfold SourceSpec.wf; infer_instance

theorem insertNoticia_wf_ok (item : Item) (st : Store) (h : item.wf) :
    ∃ r, insertNoticia item st = .ok r := by
  obtain ⟨hd, hl⟩ := h
  obtain ⟨l, hl⟩ := Option.ne_none_iff_exists'.mp hl
  obtain ⟨d, hd⟩ := Option.ne_none_iff_exists'.mp hd
  unfold insertNoticia
  split
  · rename_i hv
    unfold insertViolates at hv
    rw [hd, hl] at hv
    simp [Store.links] at hv
    obtain ⟨r, hr, hrl⟩ := hv
    have hfix : (st.rows.find? (fun r => r.link = l)).isSome := by
      rw [List.find?_isSome]
      exact ⟨r, hr, by simp [hrl]⟩
    obtain ⟨r', hr'⟩ := Option.isSome_iff_exists.mp hfix
    rw [hl]
    simp only [findByLink]
    rw [hr']
    exact ⟨_, rfl⟩
  · exact ⟨_, rfl⟩

theorem insertAll_wf_ok (items : List Item) (st : Store)
    (h : ∀ it ∈ items, it.wf) :
    ∃ st' novas, insertAll st items = (st', .ok novas) := by
  induction items generalizing st with
  | nil => exact ⟨st, 0, rfl⟩
  | cons it rest ih =>
    obtain ⟨⟨⟨id, isNew⟩, st1⟩, h1⟩ := insertNoticia_wf_ok it st (h it (by simp))
    obtain ⟨st2, n, h2⟩ := ih st1 (fun x hx => h x (List.mem_cons_of_mem _ hx))
    exact ⟨st2, (if isNew then 1 else 0) + n, by simp [insertAll, h1, h2]⟩

theorem stepSource_wf (ps : PipeState) (src : SourceSpec) (h : src.wf) :
    ∃ st' e, stepSource ps src
        = ({ store := st', coletas := ps.coletas ++ [e] }, true)
      ∧ e.fonte = src.name ∧ e.status = statusOf src := by
  obtain ⟨hS, hE, hitems⟩ := h
  cases ho : src.outcome with
  | error msg =>
    refine ⟨ps.store, ⟨src.name, 0, 0, 0, "error", some msg⟩, ?_, rfl,
      by simp [statusOf, ho]⟩
    simp [stepSource, ho, recordSourceError, registrarColeta, hE]
  | ok items =>
    have hwf : ∀ it ∈ items, it.wf := by
      intro it hit
      exact hitems it (by simp [SourceSpec.scraped, ho, hit])
    obtain ⟨st1, novas, hins⟩ := insertAll_wf_ok items ps.store hwf
    refine ⟨st1, ⟨src.name, items.length, novas,
      (items.length : Int) - (novas : Int), "success", none⟩, ?_, rfl,
      by simp [statusOf, ho]⟩
    simp [stepSource, ho, hins, registrarColeta, hS]

/-- C5: when every source's log writes go through and its items are
well-formed, the collection stage processes all sources to the end; it
appends exactly one CollectionRun entry per source, in order, whose
status is `error` exactly for the sources whose collector raised and
`success` for the others — a source's recorded status depends only on
its own outcome, not on other sources' failures. -/
theorem coleta_per_source_isolation (sources : List SourceSpec) (ps : PipeState)
    (h : ∀ src ∈ sources, src.wf) :
    (runColeta ps sources).2 = true
    ∧ ((runColeta ps sources).1).coletas.map (fun e => (e.fonte, e.status))
      = ps.coletas.map (fun e => (e.fonte, e.status))
        ++ sources.map (fun s => (s.name, statusOf s)) := by
  induction sources generalizing ps with
  | nil => simp [runColeta]
  | cons src rest ih =>
    obtain ⟨st', e, hstep, hf, hs⟩ := stepSource_wf ps src (h src (by simp))
    obtain ⟨ih1, ih2⟩ :=
      ih ⟨st', ps.coletas ++ [e]⟩ (fun s hsm => h s (List.mem_cons_of_mem _ hsm))
    constructor
    · simp [runColeta, hstep, ih1]
    · simp only [runColeta, hstep, ih2]
      simp [hf, hs]

/-- Witness for the C5 theorem: a failing source followed by a
successful one; both get their entry and the stage completes. -/
theorem coleta_per_source_isolation_witness :
    (runColeta ⟨⟨[], 1⟩, []⟩
        [⟨"agencia_gov", .error "network down", true, true⟩,
         ⟨"camara", .ok [⟨some "t", some "http://c/1", some "2025-01-01"⟩],
           true, true⟩]).2 = true
    ∧ ((runColeta ⟨⟨[], 1⟩, []⟩
        [⟨"agencia_gov", .error "network down", true, true⟩,
         ⟨"camara", .ok [⟨some "t", some "http://c/1", some "2025-01-01"⟩],
           true, true⟩]).1).coletas.map (fun e => (e.fonte, e.status))
      = ([] : List ColetaEntry).map (fun e => (e.fonte, e.status))
        ++ [⟨"agencia_gov", .error "network down", true, true⟩,
            ⟨"camara", .ok [⟨some "t", some "http://c/1", some "2025-01-01"⟩],
              true, true⟩].map (fun s => (s.name, statusOf s)) :=
  coleta_per_source_isolation
    [⟨"agencia_gov", .error "network down", true, true⟩,
     ⟨"camara", .ok [⟨some "t", some "http://c/1", some "2025-01-01"⟩], true, true⟩]
    ⟨⟨[], 1⟩, []⟩ (by decide)

/-- C8 (evidence of the code bug): `registrar_coleta` has no exception
handler, so a failed underlying database write raises to the caller;
when that happens on the error-path log write of a failed source, the
collection loop aborts with no entry recorded and the remaining sources
never collected. -/
theorem record_run_failure_aborts :
    registrarColeta false "senado" 0 0 "error" (some "disk I/O error") [] = .error ()
    ∧ runColeta ⟨⟨[], 1⟩, []⟩
        [⟨"agencia_gov", .error "network down", true, false⟩,
         ⟨"camara", .ok [⟨some "t", some "http://c/1", some "2025-01-01"⟩],
           true, true⟩]
      = (⟨⟨[], 1⟩, []⟩, false) :=
  ⟨rfl, rfl⟩

/-- C6: the guard's job invokes the pipeline exactly when no
live-process lock is held.  A lock file holding a live PID makes the job
return immediately with the world (store included) untouched; otherwise
any stale or unreadable lock file is removed and the pipeline runs on a
world whose lock file holds the current PID and whose store is
unchanged, the lock being removed afterwards. -/
theorem guard_mutual_exclusion (pipe : World → World) (w : World) :
    (liveLockHeld w = true → executeJob pipe w = (false, w))
    ∧ (liveLockHeld w = false →
      ∃ w1, executeJob pipe w = (true, removeLock (pipe w1))
        ∧ w1.lockFile = some (some w.curPid)
        ∧ w1.store = w.store ∧ w1.live = w.live ∧ w1.curPid = w.curPid) := by
  obtain ⟨lf, lv, cp, st⟩ := w
  constructor
  · intro h
    match lf, h with
    | some (some pid), h =>
      simp only [liveLockHeld, List.elem_eq_mem, decide_eq_true_eq] at h
      simp [executeJob, isAlreadyRunning, h]
  · intro h
    match lf with
    | none => exact ⟨⟨some (some cp), lv, cp, st⟩, rfl, rfl, rfl, rfl, rfl⟩
    | some none => exact ⟨⟨some (some cp), lv, cp, st⟩, rfl, rfl, rfl, rfl, rfl⟩
    | some (some pid) =>
      simp only [liveLockHeld, List.elem_eq_mem, decide_eq_false_iff_not] at h
      refine ⟨⟨some (some cp), lv, cp, st⟩, ?_, rfl, rfl, rfl, rfl⟩
      simp [executeJob, isAlreadyRunning, h, createLock, removeLock]

/-- Witness for the C6 theorem: a held live lock (PID 7 probed alive)
skips with nothing written; a stale lock (PID 7 dead) is replaced by the
current PID 9 and the pipeline runs. -/
theorem guard_mutual_exclusion_witness :
    executeJob id ⟨some (some 7), [7], 9, [3]⟩
      = (false, ⟨some (some 7), [7], 9, [3]⟩)
    ∧ ∃ w1, executeJob id ⟨some (some 7), [], 9, [3]⟩
        = (true, removeLock (id w1))
        ∧ w1.lockFile = some (some 9)
        ∧ w1.store = [3] ∧ w1.live = [] ∧ w1.curPid = 9 :=
  ⟨(guard_mutual_exclusion id ⟨some (some 7), [7], 9, [3]⟩).1 (by decide),
   (guard_mutual_exclusion id ⟨some (some 7), [], 9, [3]⟩).2 (by decide)⟩

end Clipping
